import Mathlib

/-!
# Verification of the `nop` composable network-pipeline library

Shallow embedding of the parts of the `nop` Go package that the checked
claims are about, together with theorems settling each claim.

Conventions used throughout:

* Go's `error` values are modelled by `Option GoError` (`none` is `nil`).
* Go interfaces with one relevant method are modelled as Lean functions.
* Stateful connections are modelled by explicit state passing: an
  operation takes the state before the call and returns the state after
  the call together with the returned values.
* Side effects that the claims talk about (invocations of an underlying
  `Close`, emission of structured log events) are reified as traces:
  each modelled operation also returns the list of events it performed,
  in order.
-/

namespace Nop

/-- Go `error` values, abstractly: the distinguished `net.ErrClosed`
sentinel plus arbitrary other error values identified by a tag. -/
inductive GoError where
  | errClosed
  | mk (tag : String)
  deriving DecidableEq, Repr

/-! ## Func and Compose2 (`src/compose.go`)

Go's `Func[A, B]` interface has one method
`Call(ctx context.Context, input A) (B, error)`.  We model a `Func` as a
Lean function from a context and an input to the pair of the returned
value and the returned error.  The context is an arbitrary type `Ctx`:
`compose2.Call` merely forwards it. -/

/-- Model of the `Func[A, B]` interface: `Call(ctx, input) (B, error)`. -/
def FuncM (Ctx A B : Type) : Type := Ctx → A → B × Option GoError

/-- Model of `compose2.Call` from `src/compose.go`:

```go
func (c *compose2[A, B, C]) Call(ctx context.Context, input A) (C, error) {
    res, err := c.op1.Call(ctx, input)
    if err != nil {
        var zero C
        return zero, err
    }
    return c.op2.Call(ctx, res)
}
```

Go's `var zero C` (the zero value of `C`) is modelled by
`Inhabited.default`. -/
def compose2Call {Ctx A B C : Type} [Inhabited C]
    (op1 : FuncM Ctx A B) (op2 : FuncM Ctx B C) : FuncM Ctx A C :=
  fun ctx input =>
    let r := op1 ctx input
    match r.2 with
    | some err => (default, some err)
    | none => op2 ctx r.1

end Nop

namespace Nop

/-- Claim C1: `Compose2(op1, op2).Call(ctx, x)` short-circuits: when
`op1.Call(ctx, x)` returns error `e`, the composition returns the zero
value of `C` together with `e`, and `op2` is never invoked (the result
is the same for every `op2'`, so no information can flow from `op2`);
when `op1` succeeds with output `y`, the composition returns exactly
`op2.Call(ctx, y)`, with the same context `ctx` passed unchanged to both
stages. -/
theorem compose2Call_spec {Ctx A B C : Type} [Inhabited C]
    (op1 : FuncM Ctx A B) (op2 : FuncM Ctx B C) (ctx : Ctx) (x : A) :
    (∀ e, (op1 ctx x).2 = some e →
      compose2Call op1 op2 ctx x = ((default : C), some e) ∧
      ∀ op2' : FuncM Ctx B C, compose2Call op1 op2' ctx x = ((default : C), some e)) ∧
    ((op1 ctx x).2 = none →
      compose2Call op1 op2 ctx x = op2 ctx (op1 ctx x).1) := by
  constructor
  · intro e he
    constructor
    · simp [compose2Call, he]
    · intro op2'
      simp [compose2Call, he]
  · intro hnone
    simp [compose2Call, hnone]

/-- Witness for C1 at concrete inputs: a failing `op1` short-circuits
(for two different `op2`), and a succeeding `op1` feeds its output into
`op2` under the same context. -/
theorem compose2Call_spec_witness :
    (compose2Call (C := Nat) (fun (_ : Nat) (_ : Nat) => (0, some (GoError.mk "boom")))
        (fun ctx y => (ctx + y, none)) 7 5 = (0, some (GoError.mk "boom"))) ∧
    (compose2Call (C := Nat) (fun (_ : Nat) (_ : Nat) => (0, some (GoError.mk "boom")))
        (fun _ _ => (99, none)) 7 5 = (0, some (GoError.mk "boom"))) ∧
    (compose2Call (C := Nat) (fun (ctx : Nat) (x : Nat) => (ctx * 10 + x, none))
        (fun ctx y => (ctx + y, none)) 7 5 = (7 + 75, none)) := by
  refine ⟨?_, ?_, ?_⟩
  · exact ((compose2Call_spec (fun _ _ => (0, some (GoError.mk "boom")))
      (fun ctx y => (ctx + y, none)) 7 5).1 (GoError.mk "boom") rfl).1
  · exact ((compose2Call_spec (fun _ _ => (0, some (GoError.mk "boom")))
      (fun ctx y => (ctx + y, none)) 7 5).1 (GoError.mk "boom") rfl).2
      (fun _ _ => (99, none))
  · exact (compose2Call_spec (fun ctx x => (ctx * 10 + x, none))
      (fun ctx y => (ctx + y, none)) 7 5).2 rfl

/-! ## Observed connection (`src/observeconn.go`)

`observedConn` wraps a `net.Conn`.  Its `Close` is guarded by a
`sync.Once`: the named return value is initialised to `net.ErrClosed`,
and only the first call runs the body, which logs `closeStart`, invokes
the underlying connection's `Close` and logs `closeDone`.

The underlying connection is an arbitrary state machine: a state type
`σ` together with a `Close` function `σ → σ × Option GoError`.  The
trace of one wrapper `Close` call records, in order, the log events
emitted and the underlying `Close` invocations performed. -/

/-- One step in the trace of `observedConn.Close`: a `closeStart` or
`closeDone` log event, or an invocation of the underlying `Close`
(with the error it returned). -/
inductive CloseEv where
  | logCloseStart
  | underlyingClose (err : Option GoError)
  | logCloseDone (err : Option GoError)
  deriving DecidableEq, Repr

/-- State of an `observedConn` over an underlying connection with state
type `σ`: the `sync.Once` close guard, the underlying `Close` method and
the underlying state. -/
structure ObservedConn (σ : Type) where
  closeOnceDone : Bool
  uclose : σ → σ × Option GoError
  ustate : σ

/-- Result of one `observedConn.Close` call: the wrapper state after the
call, the returned error and the trace of events performed. -/
structure ObservedCloseResult (σ : Type) where
  conn : ObservedConn σ
  ret : Option GoError
  trace : List CloseEv

/-- Model of `ObserveConnFunc.Call` (`src/observeconn.go`): wraps the
connection with a fresh (not yet fired) `sync.Once` close guard. -/
def observeConnFuncCall {σ : Type} (uclose : σ → σ × Option GoError) (s : σ) :
    ObservedConn σ :=
  { closeOnceDone := false, uclose := uclose, ustate := s }

/-- Model of `observedConn.Close` (`src/observeconn.go`):

```go
func (c *observedConn) Close() (err error) {
    err = net.ErrClosed
    c.closeonce.Do(func() {
        ... log closeStart ...
        err = c.conn.Close()
        ... log closeDone ...
    })
    return
}
```

If the once-guard already fired, the body is skipped and the initial
`net.ErrClosed` is returned with no events; otherwise `closeStart` is
logged, the underlying `Close` runs, `closeDone` is logged, and the
underlying error is returned. -/
def observedConnClose {σ : Type} (c : ObservedConn σ) : ObservedCloseResult σ :=
  if c.closeOnceDone then
    { conn := c, ret := some GoError.errClosed, trace := [] }
  else
    let r := c.uclose c.ustate
    { conn := { c with closeOnceDone := true, ustate := r.1 },
      ret := r.2,
      trace := [CloseEv.logCloseStart, CloseEv.underlyingClose r.2,
                CloseEv.logCloseDone r.2] }

/-- Iterate `observedConnClose` `n` times, collecting each call's
returned error and trace. -/
def observedCloseN {σ : Type} (c : ObservedConn σ) :
    Nat → ObservedConn σ × List (Option GoError × List CloseEv)
  | 0 => (c, [])
  | n + 1 =>
    let r := observedConnClose c
    let rest := observedCloseN r.conn n
    (rest.1, (r.ret, r.trace) :: rest.2)

theorem observedCloseN_done {σ : Type} (c : ObservedConn σ)
    (h : c.closeOnceDone = true) (n : Nat) :
    observedCloseN c n = (c, List.replicate n (some GoError.errClosed, [])) := by
  induction n with
  | zero => simp [observedCloseN]
  | succ n ih => simp [observedCloseN, observedConnClose, h, ih, List.replicate]

end Nop

namespace Nop

/-- Claim C7: on an observed connection, the first `Close` performs the
underlying close, emits the `closeStart` and `closeDone` log events
around it, and returns the underlying close's error; each of the `n`
subsequent `Close` calls returns `net.ErrClosed` with an empty trace —
no underlying close invocation and no log events. -/
theorem observedConnClose_spec {σ : Type}
    (uclose : σ → σ × Option GoError) (s : σ) (n : Nat) :
    let c0 := observeConnFuncCall uclose s
    let r1 := observedConnClose c0
    r1.ret = (uclose s).2 ∧
    r1.trace = [CloseEv.logCloseStart, CloseEv.underlyingClose (uclose s).2,
                CloseEv.logCloseDone (uclose s).2] ∧
    observedCloseN r1.conn n =
      (r1.conn, List.replicate n (some GoError.errClosed, [])) := by
  refine ⟨rfl, rfl, ?_⟩
  exact observedCloseN_done _ rfl n

/-! ## Close on the other connection wrappers

`cancelWatchedConn.Close` (cancellation watcher), `HTTPConn.Close`, and
`Close` on the four `DNSOver{UDP,TCP,TLS,HTTPS}Conn` wrappers all
delegate unconditionally to the `Close` of the connection they own — no
once-guard:

```go
func (c *cancelWatchedConn) Close() error { c.stop(); return c.Conn.Close() }
func (c *DNSOverUDPConn) Close() error  { return c.conn.Close() }
func (c *DNSOverTCPConn) Close() error  { return c.conn.Close() }
func (c *DNSOverTLSConn) Close() error  { return c.conn.Close() }
func (c *DNSOverHTTPSConn) Close() error { return c.httpConn.Close() }
func (hc *HTTPConn) Close() error { hc.closeIdleFunc(); return hc.conn.Close() }
```

As for `ObservedConn`, the owned connection is an arbitrary state
machine `σ` with a `Close` function `σ → σ × Option GoError`.  Each
modelled `Close` returns the wrapper state after the call, the returned
error, and the number of underlying `Close` invocations performed
during this call. -/

/-- `cancelWatchedConn` (`CancelWatchFunc.Call`): the owned connection
plus the `stop` handle returned by `context.AfterFunc` (modelled by a
flag recording whether `stop` has been called). -/
structure CancelWatchedConn (σ : Type) where
  stopCalled : Bool
  uclose : σ → σ × Option GoError
  ustate : σ

/-- Model of `CancelWatchFunc.Call`: wraps the connection with a fresh
watcher registration. -/
def cancelWatchFuncCall {σ : Type} (uclose : σ → σ × Option GoError) (s : σ) :
    CancelWatchedConn σ :=
  { stopCalled := false, uclose := uclose, ustate := s }

/-- Model of `cancelWatchedConn.Close`: calls `stop()` and then
unconditionally delegates to the owned connection's `Close`, performing
exactly one underlying close invocation per call. -/
def cancelWatchedConnClose {σ : Type} (c : CancelWatchedConn σ) :
    CancelWatchedConn σ × Option GoError × Nat :=
  let r := c.uclose c.ustate
  ({ c with stopCalled := true, ustate := r.1 }, r.2, 1)

/-- Model of `DNSOverUDPConn.Close`: delegates to the owned
connection's `Close` (state-passing form; the wrapper's only relevant
state is the owned connection's). -/
def dnsOverUDPConnClose {σ : Type} (uclose : σ → σ × Option GoError) (s : σ) :
    σ × Option GoError × Nat :=
  let r := uclose s
  (r.1, r.2, 1)

/-- Model of `DNSOverTCPConn.Close`: delegates to the owned
connection's `Close`. -/
def dnsOverTCPConnClose {σ : Type} (uclose : σ → σ × Option GoError) (s : σ) :
    σ × Option GoError × Nat :=
  let r := uclose s
  (r.1, r.2, 1)

/-- Model of `DNSOverTLSConn.Close`: delegates to the owned TLS
connection's `Close`. -/
def dnsOverTLSConnClose {σ : Type} (uclose : σ → σ × Option GoError) (s : σ) :
    σ × Option GoError × Nat :=
  let r := uclose s
  (r.1, r.2, 1)

/-- `HTTPConn`, restricted to the state its `Close` touches: the count
of `closeIdleFunc` invocations and the owned connection. -/
structure HTTPConnM (σ : Type) where
  idleClosed : Nat
  uclose : σ → σ × Option GoError
  ustate : σ

/-- Model of `HTTPConn.Close`: calls `closeIdleFunc()` and then
unconditionally delegates to the owned connection's `Close`. -/
def httpConnClose {σ : Type} (hc : HTTPConnM σ) :
    HTTPConnM σ × Option GoError × Nat :=
  let r := hc.uclose hc.ustate
  ({ hc with idleClosed := hc.idleClosed + 1, ustate := r.1 }, r.2, 1)

/-- Model of `DNSOverHTTPSConn.Close`: delegates to the owned
`HTTPConn`'s `Close`. -/
def dnsOverHTTPSConnClose {σ : Type} (hc : HTTPConnM σ) :
    HTTPConnM σ × Option GoError × Nat :=
  httpConnClose hc

/-- An owned connection following the Go standard library pattern: the
first `Close` succeeds, every later `Close` returns `net.ErrClosed`.
The state counts how many times `Close` has been invoked on it. -/
def stdlibConnClose : Nat → Nat × Option GoError :=
  fun n => (n + 1, if n = 0 then none else some GoError.errClosed)

end Nop

namespace Nop

/-- Counterexample to claim C2 as stated: on the cancellation-watched
connection wrapper, two `Close` calls over a stdlib-pattern owned
connection invoke the owned connection's `Close` twice, not once — the
second wrapper `Close` re-invokes the underlying close (it returns
`net.ErrClosed` only because the owned connection itself does). -/
theorem cancelWatchedConn_double_close_counterexample :
    let c0 := cancelWatchFuncCall stdlibConnClose 0
    let r1 := cancelWatchedConnClose c0
    let r2 := cancelWatchedConnClose r1.1
    r1.2.2 + r2.2.2 = 2 ∧
    r2.1.ustate = 2 ∧
    r2.2.1 = some GoError.errClosed := by
  decide

/-- Claim C2, amended: only the observed connection's `Close` is
once-guarded — two `Close` calls on it perform exactly one underlying
close invocation and the second call returns `net.ErrClosed`.
The cancellation-watched connection, the HTTP connection and the four
DNS-over-* wrappers delegate every `Close` call to the connection they
own, performing exactly one underlying close invocation per call and
returning whatever that close returns; hence a second `Close` on them
re-invokes the underlying close, and an "already closed" result arises
only from the owned connection's own stdlib-style idempotence. -/
theorem closeWrappers_spec {σ : Type}
    (uclose : σ → σ × Option GoError) (s : σ) (hc : HTTPConnM σ) :
    (let c0 := observeConnFuncCall uclose s
     let r1 := observedConnClose c0
     let r2 := observedConnClose r1.conn
     (r1.trace.count (CloseEv.underlyingClose (uclose s).2) = 1 ∧
      r2.trace = [] ∧ r2.ret = some GoError.errClosed)) ∧
    (cancelWatchedConnClose (cancelWatchFuncCall uclose s) =
      ({ stopCalled := true, uclose := uclose, ustate := (uclose s).1 },
       (uclose s).2, 1)) ∧
    (dnsOverUDPConnClose uclose s = ((uclose s).1, (uclose s).2, 1)) ∧
    (dnsOverTCPConnClose uclose s = ((uclose s).1, (uclose s).2, 1)) ∧
    (dnsOverTLSConnClose uclose s = ((uclose s).1, (uclose s).2, 1)) ∧
    (httpConnClose hc =
      ({ hc with idleClosed := hc.idleClosed + 1, ustate := (hc.uclose hc.ustate).1 },
       (hc.uclose hc.ustate).2, 1)) ∧
    (dnsOverHTTPSConnClose hc = httpConnClose hc) ∧
    (let w1 := cancelWatchedConnClose (cancelWatchFuncCall stdlibConnClose 0)
     let w2 := cancelWatchedConnClose w1.1
     w2.1.ustate = 2 ∧ w2.2.1 = some GoError.errClosed) := by
  refine ⟨⟨?_, rfl, rfl⟩, rfl, rfl, rfl, rfl, rfl, rfl, by decide⟩
  simp [observeConnFuncCall, observedConnClose]

/-! ## Lazily-observed HTTP response body (`src/httpbody.go`)

`httpBodyWrapper` wraps an `io.ReadCloser`.  `Read` is guarded by
`readOnce`: the first call records `t0 = timeNow()`, sets the atomic
`didRead` flag and logs `httpBodyStreamStart`, all before delegating to
the underlying `Read`.  `Close` is guarded by `closeOnce`: the first
call delegates to the underlying `Close` and then, only if `didRead` is
set, logs `httpBodyStreamDone`; later calls skip the body and return the
zero value of the named return (`nil`).

The underlying body is an arbitrary state machine: state type `σ` with
`Read : σ → σ × Nat × Option GoError` and `Close : σ → σ × Option
GoError`.  `timeNow` is modelled by a counter `clock` that each call to
it returns and increments.  The logging-metadata fields of the Go struct
(`errClass`, `laddr`, `logger`, `protocol`, `raddr`) only shape log
payloads that the claims do not mention, so they are omitted. -/

/-- One step in the trace of an `httpBodyWrapper` operation: a log
event (`httpBodyStreamStart` with the recorded `t0`, or
`httpBodyStreamDone` with the close error) or an invocation of the
underlying body's `Read`/`Close` with its results. -/
inductive BodyEv where
  | logStreamStart (t0 : Nat)
  | underlyingRead (count : Nat) (err : Option GoError)
  | underlyingClose (err : Option GoError)
  | logStreamDone (err : Option GoError)
  deriving DecidableEq, Repr

/-- The kind of a body-trace event, with payloads erased. -/
inductive BodyEvKind where
  | streamStart
  | uRead
  | uClose
  | streamDone
  deriving DecidableEq, Repr

/-- Erase the payload of a body-trace event. -/
def BodyEv.kind : BodyEv → BodyEvKind
  | .logStreamStart _ => .streamStart
  | .underlyingRead _ _ => .uRead
  | .underlyingClose _ => .uClose
  | .logStreamDone _ => .streamDone

/-- State of an `httpBodyWrapper` over an underlying body with state
type `σ`: the underlying `Read`/`Close` methods and state, the
`didRead` atomic flag, the two `sync.Once` guards, the recorded start
time `t0` and the modelled clock. -/
structure HTTPBodyWrapper (σ : Type) where
  uread : σ → σ × Nat × Option GoError
  uclose : σ → σ × Option GoError
  ustate : σ
  didRead : Bool
  readOnceDone : Bool
  closeOnceDone : Bool
  t0 : Nat
  clock : Nat

/-- Model of `httpBodyWrap` (`src/httpbody.go`): fresh guards, `didRead`
unset, `t0` the zero `time.Time` (modelled as `0`). -/
def httpBodyWrap {σ : Type} (uread : σ → σ × Nat × Option GoError)
    (uclose : σ → σ × Option GoError) (s : σ) (clock : Nat) :
    HTTPBodyWrapper σ :=
  { uread := uread, uclose := uclose, ustate := s,
    didRead := false, readOnceDone := false, closeOnceDone := false,
    t0 := 0, clock := clock }

/-- Model of `httpBodyWrapper.Read`: under the `readOnce` guard, record
`t0`, set `didRead` and log `httpBodyStreamStart`; then always delegate
to the underlying `Read`.  Returns the wrapper after the call, the
`(count, err)` pair returned to the caller, and the trace. -/
def httpBodyWrapperRead {σ : Type} (b : HTTPBodyWrapper σ) :
    HTTPBodyWrapper σ × (Nat × Option GoError) × List BodyEv :=
  let first :=
    if b.readOnceDone then (b, ([] : List BodyEv))
    else
      ({ b with t0 := b.clock, clock := b.clock + 1,
                didRead := true, readOnceDone := true },
       [BodyEv.logStreamStart b.clock])
  let b1 := first.1
  let r := b1.uread b1.ustate
  ({ b1 with ustate := r.1 }, (r.2.1, r.2.2),
   first.2 ++ [BodyEv.underlyingRead r.2.1 r.2.2])

/-- Model of `httpBodyWrapper.Close`: under the `closeOnce` guard,
delegate to the underlying `Close` and, only if `didRead` is set, log
`httpBodyStreamDone` afterwards; a call finding the guard spent returns
the zero named return (`nil`) with no trace. -/
def httpBodyWrapperClose {σ : Type} (b : HTTPBodyWrapper σ) :
    HTTPBodyWrapper σ × Option GoError × List BodyEv :=
  if b.closeOnceDone then (b, none, [])
  else
    let r := b.uclose b.ustate
    if b.didRead then
      ({ b with closeOnceDone := true, ustate := r.1, clock := b.clock + 1 },
       r.2, [BodyEv.underlyingClose r.2, BodyEv.logStreamDone r.2])
    else
      ({ b with closeOnceDone := true, ustate := r.1 },
       r.2, [BodyEv.underlyingClose r.2])

/-- An operation performed by the caller on a wrapped body. -/
inductive BodyOp where
  | read
  | close
  deriving DecidableEq, Repr

/-- Perform one caller operation on the wrapper, keeping the state and
the trace of that call. -/
def httpBodyWrapperStep {σ : Type} (b : HTTPBodyWrapper σ) :
    BodyOp → HTTPBodyWrapper σ × List BodyEv
  | .read => let r := httpBodyWrapperRead b; (r.1, r.2.2)
  | .close => let r := httpBodyWrapperClose b; (r.1, r.2.2)

/-- Run a sequence of caller operations, collecting each call's trace. -/
def httpBodyWrapperRun {σ : Type} (b : HTTPBodyWrapper σ) :
    List BodyOp → HTTPBodyWrapper σ × List (List BodyEv)
  | [] => (b, [])
  | op :: ops =>
    let r := httpBodyWrapperStep b op
    let rest := httpBodyWrapperRun r.1 ops
    (rest.1, r.2 :: rest.2)

/-- Specification of the event kinds of one operation, as a function of
whether a read (`r`) and a close (`c`) already happened: a read emits
`streamStart` first iff it is the first read, then performs the
underlying read; the first close performs the underlying close and then
emits `streamDone` iff a read happened before; later closes are silent.
This follows the spec's description of the lazy body-stream observer. -/
def bodyTraceKindsSpec (r c : Bool) : BodyOp → List BodyEvKind
  | .read => (if r then [] else [BodyEvKind.streamStart]) ++ [BodyEvKind.uRead]
  | .close =>
    if c then []
    else BodyEvKind.uClose :: (if r then [BodyEvKind.streamDone] else [])

/-- Specification of the per-call event kinds of a whole operation
sequence, threading the two flags. -/
def bodyTracesSpec (r c : Bool) : List BodyOp → List (List BodyEvKind)
  | [] => []
  | op :: ops =>
    bodyTraceKindsSpec r c op ::
      bodyTracesSpec (r || op == BodyOp.read) (c || op == BodyOp.close) ops

/-- Number of events of kind `k` in one call's trace. -/
def listKindCount (k : BodyEvKind) : List BodyEvKind → Nat
  | [] => 0
  | x :: xs => (if x = k then 1 else 0) + listKindCount k xs

/-- Total number of events of kind `k` across the per-call traces. -/
def flatKindCount (k : BodyEvKind) : List (List BodyEvKind) → Nat
  | [] => 0
  | t :: ts => listKindCount k t + flatKindCount k ts

/-- Whether a sequence performs a read strictly before its first close:
exactly the condition under which the close path logs `streamDone`
(given that `r` reads already happened before the sequence). -/
def streamDonePredicted (r : Bool) : List BodyOp → Bool
  | [] => false
  | .read :: ops => streamDonePredicted true ops
  | .close :: _ => r

theorem bodyOp_beq_rr : (BodyOp.read == BodyOp.read) = true := rfl

theorem bodyOp_beq_rc : (BodyOp.read == BodyOp.close) = false := rfl

theorem bodyOp_beq_cr : (BodyOp.close == BodyOp.read) = false := rfl

theorem bodyOp_beq_cc : (BodyOp.close == BodyOp.close) = true := rfl

theorem httpBodyWrapperRun_kinds {σ : Type} (ops : List BodyOp)
    (b : HTTPBodyWrapper σ) (h : b.didRead = b.readOnceDone) :
    ((httpBodyWrapperRun b ops).2).map (List.map BodyEv.kind) =
      bodyTracesSpec b.readOnceDone b.closeOnceDone ops ∧
    (httpBodyWrapperRun b ops).1.didRead =
      (httpBodyWrapperRun b ops).1.readOnceDone ∧
    (httpBodyWrapperRun b ops).1.readOnceDone =
      (b.readOnceDone || ops.any (· == BodyOp.read)) ∧
    (httpBodyWrapperRun b ops).1.closeOnceDone =
      (b.closeOnceDone || ops.any (· == BodyOp.close)) := by
  induction ops generalizing b with
  | nil => simp [httpBodyWrapperRun, bodyTracesSpec, h]
  | cons op ops ih =>
    cases op with
    | read =>
      by_cases hr : b.readOnceDone
      · have step := ih { b with
          ustate := (b.uread b.ustate).1 } (by simpa using h)
        simp [httpBodyWrapperRun, httpBodyWrapperStep, httpBodyWrapperRead,
          hr, h, bodyTracesSpec, bodyTraceKindsSpec, BodyEv.kind,
          bodyOp_beq_rr, bodyOp_beq_rc] at step ⊢
        exact step
      · have step := ih { b with
          t0 := b.clock
          clock := b.clock + 1
          didRead := true
          readOnceDone := true
          ustate := (b.uread b.ustate).1 } (by simp)
        simp [httpBodyWrapperRun, httpBodyWrapperStep, httpBodyWrapperRead,
          hr, h, bodyTracesSpec, bodyTraceKindsSpec, BodyEv.kind,
          bodyOp_beq_rr, bodyOp_beq_rc] at step ⊢
        exact step
    | close =>
      by_cases hc : b.closeOnceDone
      · have step := ih b h
        simp [httpBodyWrapperRun, httpBodyWrapperStep, httpBodyWrapperClose,
          hc, h, bodyTracesSpec, bodyTraceKindsSpec, BodyEv.kind,
          bodyOp_beq_cr, bodyOp_beq_cc] at step ⊢
        exact step
      · by_cases hd : b.didRead
        · have step := ih { b with
            closeOnceDone := true
            ustate := (b.uclose b.ustate).1
            clock := b.clock + 1 } (by simpa using h)
          simp [httpBodyWrapperRun, httpBodyWrapperStep, httpBodyWrapperClose,
            hc, hd, h.symm.trans hd, bodyTracesSpec, bodyTraceKindsSpec,
            BodyEv.kind, bodyOp_beq_cr, bodyOp_beq_cc] at step ⊢
          simpa [← h.symm.trans hd] using step
        · have step := ih { b with
            closeOnceDone := true
            ustate := (b.uclose b.ustate).1 } (by simpa using h)
          simp [httpBodyWrapperRun, httpBodyWrapperStep, httpBodyWrapperClose,
            hc, hd, bodyTracesSpec, bodyTraceKindsSpec, BodyEv.kind,
            bodyOp_beq_cr, bodyOp_beq_cc,
            h.symm.trans (by simpa using hd)] at step ⊢
          simpa [← h] using step

theorem flatKindCount_streamStart (ops : List BodyOp) (r c : Bool) :
    flatKindCount BodyEvKind.streamStart (bodyTracesSpec r c ops) =
      (if r then 0 else if ops.any (· == BodyOp.read) then 1 else 0) := by
  induction ops generalizing r c with
  | nil => simp [bodyTracesSpec, flatKindCount]
  | cons op ops ih =>
    cases op <;> by_cases hr : r <;> by_cases hc : c <;>
      simp [bodyTracesSpec, bodyTraceKindsSpec, flatKindCount, listKindCount,
        hr, hc, ih, bodyOp_beq_rr, bodyOp_beq_rc, bodyOp_beq_cr, bodyOp_beq_cc]

theorem flatKindCount_uClose (ops : List BodyOp) (r c : Bool) :
    flatKindCount BodyEvKind.uClose (bodyTracesSpec r c ops) =
      (if c then 0 else if ops.any (· == BodyOp.close) then 1 else 0) := by
  induction ops generalizing r c with
  | nil => simp [bodyTracesSpec, flatKindCount]
  | cons op ops ih =>
    cases op <;> by_cases hr : r <;> by_cases hc : c <;>
      simp [bodyTracesSpec, bodyTraceKindsSpec, flatKindCount, listKindCount,
        hr, hc, ih, bodyOp_beq_rr, bodyOp_beq_rc, bodyOp_beq_cr, bodyOp_beq_cc]

theorem flatKindCount_streamDone (ops : List BodyOp) (r c : Bool) :
    flatKindCount BodyEvKind.streamDone (bodyTracesSpec r c ops) =
      (if c then 0 else if streamDonePredicted r ops then 1 else 0) := by
  induction ops generalizing r c with
  | nil => simp [bodyTracesSpec, flatKindCount, streamDonePredicted]
  | cons op ops ih =>
    cases op <;> by_cases hr : r <;> by_cases hc : c <;>
      simp [bodyTracesSpec, bodyTraceKindsSpec, flatKindCount, listKindCount,
        streamDonePredicted, hr, hc, ih,
        bodyOp_beq_rr, bodyOp_beq_rc, bodyOp_beq_cr, bodyOp_beq_cc]

end Nop

namespace Nop

/-- Counterexample to claim C5 as stated: on the run `Read; Close;
Close` over a wrapped body, the third operation is a `Close` preceded by
a `Read`, yet it emits no `httpBodyStreamDone` event (its trace is
empty, because the close-once gate was consumed by the first `Close`),
so "a Close emits the httpBodyStreamDone event if and only if at least
one Read occurred before it" fails at this input. -/
theorem httpBody_second_close_counterexample :
    (httpBodyWrapperRun
        (httpBodyWrap (fun s : Unit => (s, 1, none)) (fun s => (s, none)) () 0)
        [BodyOp.read, BodyOp.close, BodyOp.close]).2 =
      [[BodyEv.logStreamStart 0, BodyEv.underlyingRead 1 none],
       [BodyEv.underlyingClose none, BodyEv.logStreamDone none],
       []] := by
  rfl

/-- Claim C5, amended: over every sequence of `Read` and `Close` calls
on a freshly wrapped body, the per-call event-kind traces are exactly
`bodyTracesSpec false false ops`: `httpBodyStreamStart` is emitted on
the first `Read` only, before the underlying read; the *first* `Close`
performs the underlying close and then emits `httpBodyStreamDone` if
and only if at least one `Read` occurred before it, while every later
`Close` emits nothing; consequently the total number of stream-start
events is one exactly when some `Read` occurs, and the total number of
stream-done events is one exactly when some `Read` precedes the first
`Close` (so a never-read body closes silently, and read-then-close
yields exactly one stream-start followed by one stream-done). -/
theorem httpBody_lazyLog_spec {σ : Type} (uread : σ → σ × Nat × Option GoError)
    (uclose : σ → σ × Option GoError) (s : σ) (clock : Nat) (ops : List BodyOp) :
    ((httpBodyWrapperRun (httpBodyWrap uread uclose s clock) ops).2).map
        (List.map BodyEv.kind) = bodyTracesSpec false false ops ∧
    flatKindCount BodyEvKind.streamStart (bodyTracesSpec false false ops) =
      (if ops.any (· == BodyOp.read) then 1 else 0) ∧
    flatKindCount BodyEvKind.streamDone (bodyTracesSpec false false ops) =
      (if streamDonePredicted false ops then 1 else 0) := by
  refine ⟨?_, ?_, ?_⟩
  · have hmain := (httpBodyWrapperRun_kinds ops (httpBodyWrap uread uclose s clock) rfl).1
    simpa [httpBodyWrap] using hmain
  · simp [flatKindCount_streamStart]
  · simp [flatKindCount_streamDone]

/-- Claim C10: after any operation sequence containing a `Close`, a
further `Close` on the wrapper returns `nil` (not an "already closed"
error), leaves the wrapper unchanged, invokes nothing and emits nothing;
and across the whole sequence the underlying body's `Close` is invoked
exactly once (hence at most once over any number of `Close` calls). -/
theorem httpBody_close_idempotent_spec {σ : Type}
    (uread : σ → σ × Nat × Option GoError) (uclose : σ → σ × Option GoError)
    (s : σ) (clock : Nat) (ops : List BodyOp)
    (h : ops.any (· == BodyOp.close) = true) :
    httpBodyWrapperClose (httpBodyWrapperRun (httpBodyWrap uread uclose s clock) ops).1 =
      ((httpBodyWrapperRun (httpBodyWrap uread uclose s clock) ops).1, none, []) ∧
    flatKindCount BodyEvKind.uClose
      (((httpBodyWrapperRun (httpBodyWrap uread uclose s clock) ops).2).map
        (List.map BodyEv.kind)) = 1 := by
  have hall := httpBodyWrapperRun_kinds ops (httpBodyWrap uread uclose s clock) rfl
  have hflag : (httpBodyWrapperRun (httpBodyWrap uread uclose s clock) ops).1.closeOnceDone = true := by
    have := hall.2.2.2
    simpa [httpBodyWrap, h] using this
  constructor
  · simp [httpBodyWrapperClose, hflag]
  · rw [hall.1]
    simp [httpBodyWrap, flatKindCount_uClose, h]

/-- Witness for C10 on the concrete run `Read; Close` over a trivial
underlying body: the follow-up `Close` is a no-op returning `nil`, and
the underlying close ran exactly once. -/
theorem httpBody_close_idempotent_spec_witness :
    httpBodyWrapperClose
        (httpBodyWrapperRun
          (httpBodyWrap (fun s : Unit => (s, 1, none)) (fun s => (s, none)) () 0)
          [BodyOp.read, BodyOp.close]).1 =
      ((httpBodyWrapperRun
          (httpBodyWrap (fun s : Unit => (s, 1, none)) (fun s => (s, none)) () 0)
          [BodyOp.read, BodyOp.close]).1, none, []) ∧
    flatKindCount BodyEvKind.uClose
      (((httpBodyWrapperRun
          (httpBodyWrap (fun s : Unit => (s, 1, none)) (fun s => (s, none)) () 0)
          [BodyOp.read, BodyOp.close]).2).map (List.map BodyEv.kind)) = 1 :=
  httpBody_close_idempotent_spec (fun s : Unit => (s, 1, none)) (fun s => (s, none))
    () 0 [BodyOp.read, BodyOp.close] rfl

/-! ## TLS handshake (`src/tls.go`)

`TLSHandshakeFunc.Call` clones the caller-supplied `*tls.Config`
(injecting `TimeNow` into the clone), builds a client TLS connection
over the raw connection, performs the handshake, logs, and runs
`finish`: on handshake error it closes the TLS connection (which, per
Go stdlib semantics for `(*tls.Conn).Close`, closes the underlying raw
connection) and returns `(nil, err)`; on success it returns the live
TLS connection.

The raw connection is modelled by its closed flag; the `*tls.Config`
pointer by an address into an explicit heap of config allocations, so
that "the original is never mutated" is a real frame property; the
handshake outcome by an oracle value `hsErr` (the handshake reads the
cloned config and the wire but writes neither the caller's config nor
results the claims mention). -/

/-- A raw network connection, as the claims observe it: whether it has
been closed.  Modelled from Go stdlib `net.Conn` semantics. -/
structure RawConn where
  closed : Bool
  deriving DecidableEq, Repr

/-- Read on a raw connection: fails with `net.ErrClosed` iff the
connection is closed (Go stdlib semantics for closed connections). -/
def rawConnRead (c : RawConn) : Except GoError Unit :=
  if c.closed then Except.error GoError.errClosed else Except.ok ()

/-- A client TLS connection built by `Engine.Client(conn, config)`
(stdlib engine): it owns the raw connection. -/
structure TLSConnM where
  raw : RawConn
  deriving DecidableEq, Repr

/-- `Close` on a TLS connection closes the underlying raw connection
(Go stdlib `(*tls.Conn).Close`). -/
def tlsConnClose (c : TLSConnM) : TLSConnM :=
  { c with raw := { c.raw with closed := true } }

/-- The caller-visible fields of `tls.Config` that the code reads, logs
or (on the clone) writes; `time` records which clock function is stored
in `Config.Time`. -/
structure TLSConfigM where
  serverName : String
  nextProtos : List String
  insecureSkipVerify : Bool
  time : Nat
  deriving DecidableEq, Repr

/-- A heap of `tls.Config` allocations: a `*tls.Config` is an index
into the list; dangling/nil pointers are out-of-range indices. -/
structure ConfigHeap where
  configs : List TLSConfigM
  deriving DecidableEq, Repr

/-- Dereference a `*tls.Config`. -/
def heapGet (h : ConfigHeap) (a : Nat) : Option TLSConfigM :=
  h.configs.get? a

/-- Model of `TLSHandshakeFunc.tlsConfig`:

```go
runtimex.Assert(op.Config != nil)
config := op.Config.Clone()
config.Time = op.TimeNow
return config
```

The assertion panic on a nil config is modelled by `none`; otherwise
`Clone` allocates a fresh config equal to the original, and only the
clone's `Time` field is overwritten. -/
def tlsConfigClone (h : ConfigHeap) (a : Nat) (clockId : Nat) :
    Option (ConfigHeap × Nat) :=
  match heapGet h a with
  | none => none
  | some cfg =>
    some ({ configs := h.configs ++ [{ cfg with time := clockId }] },
          h.configs.length)

/-- Model of `TLSHandshakeFunc.finish`:

```go
func (op *TLSHandshakeFunc) finish(conn TLSConn, err error) (TLSConn, error) {
    if err != nil {
        conn.Close()
        return nil, err
    }
    return conn, nil
}
```

Returns the pair returned to the caller together with the TLS
connection's state after the call. -/
def tlsFinish (conn : TLSConnM) (err : Option GoError) :
    (Option TLSConnM × Option GoError) × TLSConnM :=
  match err with
  | some e => ((none, some e), tlsConnClose conn)
  | none => ((some conn, none), conn)

/-- The observable outcome of one `TLSHandshakeFunc.Call`: the returned
connection and error, the config heap after the call, and the raw
connection's state after the call. -/
structure TLSCallResult where
  retConn : Option TLSConnM
  retErr : Option GoError
  heap : ConfigHeap
  rawAfter : RawConn
  deriving DecidableEq, Repr

/-- Model of `TLSHandshakeFunc.Call`: clone the config with the clock
injected (`none` models the assertion panic on a nil config), build the
client TLS connection over the raw connection, perform the handshake
with outcome `hsErr`, and run `finish`.  The log emissions read state
but change nothing the claims mention, so they are omitted. -/
def tlsHandshakeFuncCall (h : ConfigHeap) (cfgAddr : Nat) (clockId : Nat)
    (raw : RawConn) (hsErr : Option GoError) : Option TLSCallResult :=
  match tlsConfigClone h cfgAddr clockId with
  | none => none
  | some hc =>
    let tconn : TLSConnM := { raw := raw }
    let fin := tlsFinish tconn hsErr
    some { retConn := fin.1.1, retErr := fin.1.2, heap := hc.1,
           rawAfter := fin.2.raw }

end Nop

namespace Nop

/-- Claim C3: when the handshake fails with error `e`,
`TLSHandshakeFunc.Call` returns a nil `TLSConn` together with `e`
unmodified, and the raw connection is closed before returning, so a
subsequent read on it fails; when the handshake succeeds, `Call`
returns the live TLS connection (owning the raw connection) with a nil
error and closes nothing — the raw connection's state is unchanged. -/
theorem tlsHandshakeCall_cleanup_spec (h : ConfigHeap) (cfgAddr clockId : Nat)
    (raw : RawConn) (hsErr : Option GoError) (r : TLSCallResult)
    (hr : tlsHandshakeFuncCall h cfgAddr clockId raw hsErr = some r) :
    (∀ e, hsErr = some e →
      r.retConn = none ∧ r.retErr = some e ∧ r.rawAfter.closed = true ∧
      rawConnRead r.rawAfter = Except.error GoError.errClosed) ∧
    (hsErr = none →
      r.retConn = some { raw := raw } ∧ r.retErr = none ∧ r.rawAfter = raw) := by
  unfold tlsHandshakeFuncCall at hr
  cases hcl : tlsConfigClone h cfgAddr clockId with
  | none => rw [hcl] at hr; exact absurd hr (by simp)
  | some hc =>
    rw [hcl] at hr
    simp at hr
    constructor
    · intro e he
      subst he
      simp [tlsFinish, tlsConnClose, rawConnRead] at hr ⊢
      simp [← hr]
    · intro he
      subst he
      simp [tlsFinish] at hr
      simp [← hr]

/-- A concrete handshake configuration and one-config heap used by the
witnesses. -/
def sampleTLSConfig : TLSConfigM :=
  { serverName := "example.com", nextProtos := ["h2"], insecureSkipVerify := false, time := 0 }

/-- A heap holding just `sampleTLSConfig` at address `0`. -/
def sampleHeap : ConfigHeap := { configs := [sampleTLSConfig] }

/-- Witness for C3: over a one-config heap, a failed handshake returns
the error with the raw connection closed and unreadable, and a
successful handshake returns the connection with the raw state
untouched. -/
theorem tlsHandshakeCall_cleanup_spec_witness :
    (∃ r, tlsHandshakeFuncCall sampleHeap 0 1 { closed := false } (some (GoError.mk "bad cert")) = some r ∧
       (r.retConn = none ∧ r.retErr = some (GoError.mk "bad cert") ∧
        r.rawAfter.closed = true ∧
        rawConnRead r.rawAfter = Except.error GoError.errClosed)) ∧
    (∃ r, tlsHandshakeFuncCall sampleHeap 0 1 { closed := false } none = some r ∧
       (r.retConn = some { raw := { closed := false } } ∧ r.retErr = none ∧
        r.rawAfter = { closed := false })) := by
  constructor
  · exact ⟨_, rfl, ((tlsHandshakeCall_cleanup_spec sampleHeap 0 1 _ _ _ rfl).1
      (GoError.mk "bad cert") rfl)⟩
  · exact ⟨_, rfl, ((tlsHandshakeCall_cleanup_spec sampleHeap 0 1 _ _ _ rfl).2 rfl)⟩

/-- Claim C8: `TLSHandshakeFunc.Call` never mutates the caller-supplied
handshake configuration: for every input connection and every handshake
outcome, every config object that existed before the call — in
particular the one at the caller's address — is unchanged in the heap
after the call, and the handshake used a freshly allocated clone that
differs from the original only in the injected clock (`Time`). -/
theorem tlsHandshakeCall_frame_spec (h : ConfigHeap) (cfgAddr clockId : Nat)
    (raw : RawConn) (hsErr : Option GoError) (r : TLSCallResult)
    (hr : tlsHandshakeFuncCall h cfgAddr clockId raw hsErr = some r) :
    heapGet r.heap cfgAddr = heapGet h cfgAddr ∧
    (∀ b, b < h.configs.length → heapGet r.heap b = heapGet h b) ∧
    r.heap.configs.length = h.configs.length + 1 ∧
    heapGet r.heap h.configs.length =
      (heapGet h cfgAddr).map (fun cfg => { cfg with time := clockId }) := by
  unfold tlsHandshakeFuncCall tlsConfigClone at hr
  cases hg : heapGet h cfgAddr with
  | none => rw [hg] at hr; exact absurd hr (by simp)
  | some cfg =>
    rw [hg] at hr
    simp at hr
    have hheap : r.heap = { configs := h.configs ++ [{ cfg with time := clockId }] } := by
      rw [← hr]
    have hlen : cfgAddr < h.configs.length := by
      by_contra hge
      have hnone : heapGet h cfgAddr = none := by
        unfold heapGet
        exact List.get?_eq_none.mpr (by omega)
      rw [hnone] at hg
      cases hg
    have hb : ∀ b, b < h.configs.length → heapGet r.heap b = heapGet h b := by
      intro b hblt
      unfold heapGet
      rw [hheap]
      simp [List.getElem?_append_left hblt]
    refine ⟨(hb cfgAddr hlen).trans hg, hb, ?_, ?_⟩
    · rw [hheap]
      simp
    · unfold heapGet
      rw [hheap]
      simp

/-- Witness for C8: over a one-config heap and a failing handshake, the
original config is unchanged and the clone holds the injected clock. -/
theorem tlsHandshakeCall_frame_spec_witness :
    ∃ r, tlsHandshakeFuncCall sampleHeap 0 7 { closed := false } (some (GoError.mk "eof")) = some r ∧
      (heapGet r.heap 0 = heapGet sampleHeap 0 ∧
       r.heap.configs.length = 2 ∧
       heapGet r.heap 1 = (heapGet sampleHeap 0).map (fun cfg => { cfg with time := 7 })) := by
  refine ⟨_, rfl, ?_, ?_, ?_⟩
  · exact (tlsHandshakeCall_frame_spec sampleHeap 0 7 _ _ _ rfl).1
  · exact (tlsHandshakeCall_frame_spec sampleHeap 0 7 _ _ _ rfl).2.2.1
  · exact (tlsHandshakeCall_frame_spec sampleHeap 0 7 _ _ _ rfl).2.2.2

/-! ## Peer-certificate extraction (`TLSHandshakeFunc.peerCerts`)

`peerCerts(state, err)` inspects `err` with `errors.As` against three
certificate-error shapes, in source order `x509.HostnameError`,
`x509.UnknownAuthorityError`, `x509.CertificateInvalidError`, returning
the single certificate attached to the first matching shape; if none
matches (in particular when `err` is `nil`, where `errors.As` never
matches), it returns the raw bytes of `state.PeerCertificates`.

`errors.As` on a given error chain is modelled by its observable
outcome: for each of the three target types, the certificate carried by
the first matching error in the chain, if any. -/

/-- An X.509 certificate; the code only uses its raw DER bytes. -/
structure CertM where
  raw : List Nat
  deriving DecidableEq, Repr

/-- The outcome of `errors.As` on one handshake error for each of the
three certificate-error target types inspected by `peerCerts`. -/
structure HandshakeErrAs where
  asHostnameError : Option CertM
  asUnknownAuthorityError : Option CertM
  asCertificateInvalidError : Option CertM
  deriving DecidableEq, Repr

/-- `tls.ConnectionState`, restricted to the fields the claims use. -/
structure ConnStateM where
  negotiatedProtocol : String
  peerCertificates : List CertM
  deriving DecidableEq, Repr

/-- Model of `TLSHandshakeFunc.peerCerts`: try the three `errors.As`
shapes in source order with an early return of the single attached
certificate; otherwise collect the raw bytes of the state's
certificates (a `nil` error matches no shape). -/
def peerCerts (state : ConnStateM) (err : Option HandshakeErrAs) : List (List Nat) :=
  match err with
  | none => state.peerCertificates.map CertM.raw
  | some e =>
    match e.asHostnameError with
    | some cert => [cert.raw]
    | none =>
      match e.asUnknownAuthorityError with
      | some cert => [cert.raw]
      | none =>
        match e.asCertificateInvalidError with
        | some cert => [cert.raw]
        | none => state.peerCertificates.map CertM.raw

end Nop

namespace Nop

/-- Claim C6: the handshake error is inspected for the
hostname-mismatch shape first, then unknown-certificate-authority, then
generic certificate-invalidity; the first match yields exactly the
single certificate attached to that error (regardless of the later
shapes); if none matches — in particular for a nil error — the result
is the raw certificate list exposed by the connection state, which is
empty when the state holds no certificates. -/
theorem peerCerts_spec (state : ConnStateM) (e : HandshakeErrAs) :
    (∀ c, e.asHostnameError = some c → peerCerts state (some e) = [c.raw]) ∧
    (∀ c, e.asHostnameError = none → e.asUnknownAuthorityError = some c →
      peerCerts state (some e) = [c.raw]) ∧
    (∀ c, e.asHostnameError = none → e.asUnknownAuthorityError = none →
      e.asCertificateInvalidError = some c → peerCerts state (some e) = [c.raw]) ∧
    (e.asHostnameError = none → e.asUnknownAuthorityError = none →
      e.asCertificateInvalidError = none →
      peerCerts state (some e) = state.peerCertificates.map CertM.raw) ∧
    (peerCerts state none = state.peerCertificates.map CertM.raw) ∧
    (state.peerCertificates = [] → peerCerts state none = []) := by
  refine ⟨?_, ?_, ?_, ?_, rfl, ?_⟩
  · intro c hc
    simp [peerCerts, hc]
  · intro c h1 hc
    simp [peerCerts, h1, hc]
  · intro c h1 h2 hc
    simp [peerCerts, h1, h2, hc]
  · intro h1 h2 h3
    simp [peerCerts, h1, h2, h3]
  · intro hempty
    simp [peerCerts, hempty]

/-- Witness for C6 at concrete inputs, exercising every branch: the
hostname shape wins even when all three shapes match; each later shape
applies when the earlier ones do not; with no matching shape the
state's certificates are returned, and an empty state yields `[]`. -/
theorem peerCerts_spec_witness :
    (peerCerts { negotiatedProtocol := "", peerCertificates := [⟨[9]⟩] }
      (some { asHostnameError := some ⟨[1]⟩, asUnknownAuthorityError := some ⟨[2]⟩, asCertificateInvalidError := some ⟨[3]⟩ }) = [[1]]) ∧
    (peerCerts { negotiatedProtocol := "", peerCertificates := [⟨[9]⟩] }
      (some { asHostnameError := none, asUnknownAuthorityError := some ⟨[2]⟩, asCertificateInvalidError := some ⟨[3]⟩ }) = [[2]]) ∧
    (peerCerts { negotiatedProtocol := "", peerCertificates := [⟨[9]⟩] }
      (some { asHostnameError := none, asUnknownAuthorityError := none, asCertificateInvalidError := some ⟨[3]⟩ }) = [[3]]) ∧
    (peerCerts { negotiatedProtocol := "", peerCertificates := [⟨[9]⟩] }
      (some { asHostnameError := none, asUnknownAuthorityError := none, asCertificateInvalidError := none }) = [[9]]) ∧
    (peerCerts { negotiatedProtocol := "", peerCertificates := [] } none = []) := by
  refine ⟨?_, ?_, ?_, ?_, ?_⟩
  · exact (peerCerts_spec { negotiatedProtocol := "", peerCertificates := [⟨[9]⟩] }
      { asHostnameError := some ⟨[1]⟩, asUnknownAuthorityError := some ⟨[2]⟩, asCertificateInvalidError := some ⟨[3]⟩ }).1 ⟨[1]⟩ rfl
  · exact (peerCerts_spec { negotiatedProtocol := "", peerCertificates := [⟨[9]⟩] }
      { asHostnameError := none, asUnknownAuthorityError := some ⟨[2]⟩, asCertificateInvalidError := some ⟨[3]⟩ }).2.1 ⟨[2]⟩ rfl rfl
  · exact (peerCerts_spec { negotiatedProtocol := "", peerCertificates := [⟨[9]⟩] }
      { asHostnameError := none, asUnknownAuthorityError := none, asCertificateInvalidError := some ⟨[3]⟩ }).2.2.1 ⟨[3]⟩ rfl rfl rfl
  · have := (peerCerts_spec { negotiatedProtocol := "", peerCertificates := [⟨[9]⟩] }
      { asHostnameError := none, asUnknownAuthorityError := none, asCertificateInvalidError := none }).2.2.2.1 rfl rfl rfl
    simpa using this
  · exact (peerCerts_spec { negotiatedProtocol := "", peerCertificates := [] }
      { asHostnameError := none, asUnknownAuthorityError := none, asCertificateInvalidError := none }).2.2.2.2.2 rfl

/-! ## ALPN-driven transport selection (`HTTPConnFunc.Call`, `src/endpoint.go`)

`Call` probes the input connection for a `ConnectionState()`
capability; a TLS connection reports its negotiated protocol, any other
connection yields the empty string.  It then builds a single-use dialer
from the connection and switches on the ALPN value: `"h2"` yields an
`http2.Transport` whose `DialTLSContext` is the single-use dialer;
every other value yields an `http.Transport` with keep-alives disabled
whose `DialContext` and `DialTLSContext` are both that dialer.

The input connection is modelled by an identifier plus the optional
connection state it exposes; the single-use dialer built from a
connection is identified by that connection's identifier, so "both
hooks are that same dialer" is expressible. -/

/-- The transport constructed by `HTTPConnFunc.Call`, with each dial
hook recorded as the identifier of the dialer installed there. -/
inductive TransportM where
  | h2 (dialTLSCtx : Nat) (disableCompression : Bool)
  | h1 (dialCtx : Nat) (dialTLSCtx : Nat) (disableKeepAlives : Bool) (disableCompression : Bool)
  deriving DecidableEq, Repr

/-- The fields of the constructed `HTTPConn` that claim C4 mentions:
the wrapped connection and the selected transport. -/
structure HTTPConnTxp where
  connId : Nat
  txp : TransportM
  deriving DecidableEq, Repr

/-- Model of `HTTPConnFunc.Call`: read the negotiated protocol via the
optional `ConnectionState` capability (empty when absent), build the
single-use dialer from the connection, and select the transport by
ALPN (`switch` with a single `"h2"` case and a default). -/
def httpConnFuncCall (connId : Nat) (connState : Option ConnStateM) : HTTPConnTxp :=
  let alpn :=
    match connState with
    | some st => st.negotiatedProtocol
    | none => ""
  let dialer := connId
  if alpn = "h2" then
    { connId := connId, txp := TransportM.h2 dialer false }
  else
    { connId := connId, txp := TransportM.h1 dialer dialer true false }

end Nop

namespace Nop

/-- Claim C4: if the connection exposes a TLS connection state whose
negotiated protocol is `"h2"`, the constructed HTTP connection's
transport is the HTTP/2 transport whose TLS dial hook is the single-use
dialer built from that connection; for every other negotiated protocol,
and for a connection exposing no TLS state, it is the HTTP/1.1
transport with keep-alives disabled whose plain and TLS dial hooks are
both that same dialer. -/
theorem httpConnFuncCall_alpn_spec (connId : Nat) (cs : Option ConnStateM) :
    (∀ st, cs = some st → st.negotiatedProtocol = "h2" →
      (httpConnFuncCall connId cs).txp = TransportM.h2 connId false) ∧
    (∀ st, cs = some st → st.negotiatedProtocol ≠ "h2" →
      (httpConnFuncCall connId cs).txp = TransportM.h1 connId connId true false) ∧
    (cs = none →
      (httpConnFuncCall connId cs).txp = TransportM.h1 connId connId true false) := by
  refine ⟨?_, ?_, ?_⟩
  · intro st hcs hh2
    subst hcs
    simp [httpConnFuncCall, hh2]
  · intro st hcs hne
    subst hcs
    simp [httpConnFuncCall, hne]
  · intro hcs
    subst hcs
    simp [httpConnFuncCall]

/-- Witness for C4 at concrete inputs: negotiated `"h2"` selects the
HTTP/2 transport; negotiated `"http/1.1"` and an absent TLS state both
select the keep-alive-disabled HTTP/1.1 transport with both dial hooks
bound to the same single-use dialer. -/
theorem httpConnFuncCall_alpn_spec_witness :
    ((httpConnFuncCall 3 (some { negotiatedProtocol := "h2", peerCertificates := [] })).txp =
      TransportM.h2 3 false) ∧
    ((httpConnFuncCall 3 (some { negotiatedProtocol := "http/1.1", peerCertificates := [] })).txp =
      TransportM.h1 3 3 true false) ∧
    ((httpConnFuncCall 3 none).txp = TransportM.h1 3 3 true false) := by
  refine ⟨?_, ?_, ?_⟩
  · exact (httpConnFuncCall_alpn_spec 3
      (some { negotiatedProtocol := "h2", peerCertificates := [] })).1 _ rfl rfl
  · exact (httpConnFuncCall_alpn_spec 3
      (some { negotiatedProtocol := "http/1.1", peerCertificates := [] })).2.1 _ rfl (by decide)
  · exact (httpConnFuncCall_alpn_spec 3 none).2.2 rfl

/-! ## DNS dial sentinel (`dnsUnusedDialer`)

`dnsUnusedDialer.DialContext` panics unconditionally; the DNS exchange
methods install it so that any dial attempt is a loud programmer error.
The model makes the panic an explicit outcome value, distinct from
every successful or failing dial. -/

/-- The outcome of a `DialContext` invocation: a connection, an error,
or a panic. -/
inductive DialOutcome where
  | ok (connId : Nat)
  | err (e : GoError)
  | panicked (msg : String)
  deriving DecidableEq, Repr

/-- Model of `dnsUnusedDialer.DialContext`: panics on every invocation
with the fixed programmer-error message. -/
def dnsUnusedDialerDialContext (_ctx : Nat) (_network _address : String) : DialOutcome :=
  DialOutcome.panicked "nop: DNS transport must not dial; this is a programming error"

end Nop

namespace Nop

/-- Claim C9: for every context, network string and address string,
`dnsUnusedDialer.DialContext` panics and never returns a connection or
an error, so a DNS exchange can never complete a dial through it. -/
theorem dnsUnusedDialer_spec (ctx : Nat) (network address : String) :
    dnsUnusedDialerDialContext ctx network address =
      DialOutcome.panicked "nop: DNS transport must not dial; this is a programming error" ∧
    (∀ c, dnsUnusedDialerDialContext ctx network address ≠ DialOutcome.ok c) ∧
    (∀ e, dnsUnusedDialerDialContext ctx network address ≠ DialOutcome.err e) := by
  refine ⟨rfl, ?_, ?_⟩
  · intro c
    simp [dnsUnusedDialerDialContext]
  · intro e
    simp [dnsUnusedDialerDialContext]

/-- Witness for C9 at a concrete invocation: dialing `8.8.8.8:53` over
`"udp"` panics and is neither a successful dial nor an error return. -/
theorem dnsUnusedDialer_spec_witness :
    dnsUnusedDialerDialContext 0 "udp" "8.8.8.8:53" =
      DialOutcome.panicked "nop: DNS transport must not dial; this is a programming error" ∧
    dnsUnusedDialerDialContext 0 "udp" "8.8.8.8:53" ≠ DialOutcome.ok 1 ∧
    dnsUnusedDialerDialContext 0 "udp" "8.8.8.8:53" ≠ DialOutcome.err GoError.errClosed :=
  ⟨(dnsUnusedDialer_spec 0 "udp" "8.8.8.8:53").1,
   (dnsUnusedDialer_spec 0 "udp" "8.8.8.8:53").2.1 1,
   (dnsUnusedDialer_spec 0 "udp" "8.8.8.8:53").2.2 GoError.errClosed⟩

end Nop
